import Mathlib

/-!
Verification of the StoneSearch API (`api/app/main.py`) against its
natural-language specification.

The embedding models the Python module shallowly:
* Python values that can occur in engine (Elasticsearch) JSON responses are
  the inductive `PyVal`.
* Python floats are `PyFloat`: finite values are exact rationals (`Frac`, an
  unnormalized integer fraction with executable arithmetic); `inf`, `-inf`
  and `nan` are explicit constructors.  Real IEEE doubles round; the spec's
  "within floating-point tolerance" absorbs that difference.
* `datetime` objects are `Datetime`: the UTC instant in integer microseconds
  since the Unix epoch (Python datetimes have exactly microsecond
  resolution), plus an optional timezone offset (`none` = naive, as produced
  by `datetime.utcfromtimestamp`).
* Fallible Python code returns `Except PyExn _`; an uncaught exception in a
  handler surfaces as `HTTPError.unhandled` (FastAPI's generic 500), while an
  explicit `HTTPException(status, detail)` is `HTTPError.httpException`.
-/

/-- Python exception classes the modelled code can raise. -/
inductive PyExn where
  | attributeError
  | typeError
  | valueError
  | overflowError
  | validationError
deriving DecidableEq, Repr

instance {ε α : Type} [DecidableEq ε] [DecidableEq α] : DecidableEq (Except ε α) := fun a b =>
  match a, b with
  | .ok x, .ok y =>
      if h : x = y then .isTrue (h ▸ rfl) else .isFalse (fun c => h (Except.ok.inj c))
  | .error x, .error y =>
      if h : x = y then .isTrue (h ▸ rfl) else .isFalse (fun c => h (Except.error.inj c))
  | .ok _, .error _ => .isFalse Except.noConfusion
  | .error _, .ok _ => .isFalse Except.noConfusion

/-- An exact rational `num / den` with positive denominator, not kept in
lowest terms (so all operations are plain integer arithmetic and evaluate
inside the kernel).  Value equality is `Frac.veq`; the structural equality of
two `Frac`s built by identical computations coincides with it. -/
structure Frac where
  num : Int
  den : Nat
deriving DecidableEq, Repr

namespace Frac

/-- Embed an integer. -/
def ofInt (n : Int) : Frac := ⟨n, 1⟩

/-- Exact addition. -/
def add (a b : Frac) : Frac := ⟨a.num * b.den + b.num * a.den, a.den * b.den⟩

/-- Exact division by a positive natural (used for `/ 1000.0` and decimal
scaling). -/
def divNat (a : Frac) (k : Nat) : Frac := ⟨a.num, a.den * k⟩

/-- `a < b` as rational values (denominators are positive). -/
def ltb (a b : Frac) : Bool := decide (a.num * b.den < b.num * a.den)

/-- Value equality. -/
def veq (a b : Frac) : Bool := decide (a.num * (b.den : Int) = b.num * (a.den : Int))

/-- The value rounded to an integer, half away from zero (models the
microsecond rounding of `datetime.utcfromtimestamp`; CPython rounds half to
even, a sub-microsecond edge no claim exercises). -/
def roundI (a : Frac) : Int :=
  if 0 ≤ a.num then Int.fdiv (2 * a.num + a.den) (2 * a.den)
  else - Int.fdiv (2 * (-a.num) + a.den) (2 * a.den)

/-- Truncation toward zero (Python `int(float)`). -/
def trunc (a : Frac) : Int :=
  if 0 ≤ a.num then Int.fdiv a.num a.den else - Int.fdiv (-a.num) a.den

end Frac

/-- A Python float: a finite exact value or one of the non-finite IEEE
values. -/
inductive PyFloat where
  | finite (x : Frac)
  | inf
  | ninf
  | nan
deriving DecidableEq, Repr

namespace PyFloat

/-- Python `+` on floats (exact on finite values; `inf + -inf = nan`, `nan`
propagates). -/
def add : PyFloat → PyFloat → PyFloat
  | nan, _ => nan
  | _, nan => nan
  | inf, ninf => nan
  | ninf, inf => nan
  | inf, _ => inf
  | _, inf => inf
  | ninf, _ => ninf
  | _, ninf => ninf
  | finite a, finite b => finite (a.add b)

/-- Python `x > c` for an integer bound `c` (`nan > c` is `False`). -/
def gtI : PyFloat → Int → Bool
  | finite a, c => Frac.ltb (Frac.ofInt c) a
  | inf, _ => true
  | ninf, _ => false
  | nan, _ => false

/-- Python `x / k` for a positive integer divisor `k`. -/
def divNat : PyFloat → Nat → PyFloat
  | finite a, k => finite (a.divNat k)
  | inf, _ => inf
  | ninf, _ => ninf
  | nan, _ => nan

/-- Whether the float is a finite value. -/
def isFiniteB : PyFloat → Bool
  | finite _ => true
  | _ => false

/-- Value equality (structural on the underlying fraction values; `nan` is
equal to itself here, which only strengthens inequality counterexamples). -/
def veq : PyFloat → PyFloat → Bool
  | finite a, finite b => a.veq b
  | inf, inf => true
  | ninf, ninf => true
  | nan, nan => true
  | _, _ => false

/-- Python truthiness of a float (`0.0` is falsy; `nan` and infinities are
truthy). -/
def truthy : PyFloat → Bool
  | finite a => decide (a.num ≠ 0)
  | _ => true

end PyFloat

/-- A Python `datetime`: the UTC instant it denotes (microseconds since
1970-01-01T00:00:00Z) and the attached timezone offset in seconds east of UTC
(`none` for a naive datetime).  For a naive datetime the wall-clock fields
equal the UTC fields, matching `datetime.utcfromtimestamp`; for an aware one
the wall clock is `utcUs + tz·10⁶`. -/
structure Datetime where
  utcUs : Int
  tz : Option Int
deriving DecidableEq, Repr

/-- The instant a datetime denotes, with naive datetimes read as UTC (the
contract of `_parse_created_at`: "retorna datetime (UTC)"). -/
def Datetime.instant (d : Datetime) : Int := d.utcUs

/-- `datetime.utcfromtimestamp(0)`: the Unix epoch as a naive datetime. -/
def epochDt : Datetime := ⟨0, none⟩

/-- A Python value as it can occur in a decoded engine JSON response or be
built by the module (JSON object keys are strings; `json.loads` keeps the
last of duplicate keys, so association lists with unique keys are faithful). -/
inductive PyVal where
  | noneV
  | boolV (b : Bool)
  | intV (n : Int)
  | floatV (f : PyFloat)
  | strV (s : String)
  | dtV (d : Datetime)
  | listV (xs : List PyVal)
  | dictV (es : List (String × PyVal))
deriving Repr

namespace PyVal

/-- Python truthiness. -/
def truthy : PyVal → Bool
  | noneV => false
  | boolV b => b
  | intV n => decide (n ≠ 0)
  | floatV f => f.truthy
  | strV s => decide (s ≠ "")
  | dtV _ => true
  | listV xs => !xs.isEmpty
  | dictV es => !es.isEmpty

/-- Python `d.get(k, default)`.  On a non-dict receiver the attribute lookup
raises `AttributeError`. -/
def get : PyVal → String → PyVal → Except PyExn PyVal
  | dictV es, k, dflt => .ok ((es.lookup k).getD dflt)
  | _, _, _ => .error .attributeError

/-- Python iteration (`for x in v`): a list yields its elements, a string its
characters, a dict its keys; other values raise `TypeError`. -/
def iter : PyVal → Except PyExn (List PyVal)
  | listV xs => .ok xs
  | strV s => .ok (s.data.map fun c => strV (String.mk [c]))
  | dictV es => .ok (es.map fun e => strV e.1)
  | _ => .error .typeError

end PyVal

/-! ## Calendar arithmetic (proleptic Gregorian, as used by `datetime`) -/

/-- Gregorian leap-year test. -/
def isLeap (y : Int) : Bool := (y % 4 == 0 && y % 100 != 0) || y % 400 == 0

/-- Number of days in a month. -/
def daysInMonth (y m : Int) : Int :=
  if m = 2 then (if isLeap y then 29 else 28)
  else if m = 4 ∨ m = 6 ∨ m = 9 ∨ m = 11 then 30
  else 31

/-- Days from 1970-01-01 to the civil date `y-m-d` (Hinnant's algorithm). -/
def days_from_civil (y m d : Int) : Int :=
  let y' := y - (if m ≤ 2 then 1 else 0)
  let era := Int.fdiv y' 400
  let yoe := y' - era * 400
  let doy := Int.fdiv (153 * (m + (if m > 2 then -3 else 9)) + 2) 5 + d - 1
  let doe := yoe * 365 + Int.fdiv yoe 4 - Int.fdiv yoe 100 + doy
  era * 146097 + doe - 719468

/-- Civil date `(y, m, d)` for a count of days since 1970-01-01 (inverse of
`days_from_civil`). -/
def civil_from_days (z0 : Int) : Int × Int × Int :=
  let z := z0 + 719468
  let era := Int.fdiv z 146097
  let doe := z - era * 146097
  let yoe := Int.fdiv (doe - Int.fdiv doe 1460 + Int.fdiv doe 36524 - Int.fdiv doe 146096) 365
  let y := yoe + era * 400
  let doy := doe - (365 * yoe + Int.fdiv yoe 4 - Int.fdiv yoe 100)
  let mp := Int.fdiv (5 * doy + 2) 153
  let d := doy - Int.fdiv (153 * mp + 2) 5 + 1
  let m := mp + (if mp < 10 then 3 else -9)
  (y + (if m ≤ 2 then 1 else 0), m, d)

/-! ## `dateutil.parser.isoparse`

Modelled for the ISO-8601 extended format the service exchanges:
`YYYY[-MM[-DD]]`, optionally followed by `T HH[:MM[:SS[.ffffff]]]` and an
offset (`Z`, `±HH`, `±HHMM` or `±HH:MM`).  Exotic inputs the library also
accepts (basic dash-less dates, ISO week dates, `,` as the decimal mark,
non-`T` separators) are outside the model; the claims exercise none of them.
A parse failure — including field values `datetime` would reject — is `none`
(the library raises `ValueError`, which every caller in the module catches).
-/

/-- Decimal value of a digit list (most significant first). -/
def digitsToNat (cs : List Char) : Nat :=
  cs.foldl (fun a c => a * 10 + (c.toNat - 48)) 0

/-- Take exactly `n` leading digits. -/
def takeDigits (n : Nat) (cs : List Char) : Option (Nat × List Char) :=
  let pre := cs.take n
  if pre.length = n ∧ pre.all Char.isDigit then some (digitsToNat pre, cs.drop n)
  else none

/-- Parse the date part `YYYY[-MM[-DD]]`; missing fields default to 1. -/
def parseDatePart (cs : List Char) : Option (Int × Int × Int × List Char) := do
  let (y, r1) ← takeDigits 4 cs
  match r1 with
  | '-' :: r2 => do
      let (m, r3) ← takeDigits 2 r2
      match r3 with
      | '-' :: r4 => do
          let (d, r5) ← takeDigits 2 r4
          pure ((y : Int), (m : Int), (d : Int), r5)
      | _ => pure ((y : Int), (m : Int), 1, r3)
  | _ => pure ((y : Int), 1, 1, r1)

/-- Microseconds denoted by up to six fractional-second digits (dateutil
reads at most six digits; further digits are not modelled). -/
def fracDigitsToUs (cs : List Char) : Int :=
  (digitsToNat ((cs.take 6) ++ List.replicate (6 - cs.length) '0') : Int)

/-- Parse the time part `HH[:MM[:SS[.ffffff]]]`, returning microseconds of
day. -/
def parseTimePart (cs : List Char) : Option (Int × List Char) := do
  let (hh, r1) ← takeDigits 2 cs
  if hh ≥ 24 then none else
  match r1 with
  | ':' :: r2 => do
      let (mm, r3) ← takeDigits 2 r2
      if mm ≥ 60 then none else
      match r3 with
      | ':' :: r4 => do
          let (ss, r5) ← takeDigits 2 r4
          if ss ≥ 60 then none else
          match r5 with
          | '.' :: r6 =>
              let frac := r6.takeWhile Char.isDigit
              if frac.isEmpty then none
              else
                pure (((hh * 3600 + mm * 60 + ss : Nat) : Int) * 1000000 + fracDigitsToUs frac,
                      r6.dropWhile Char.isDigit)
          | _ => pure (((hh * 3600 + mm * 60 + ss : Nat) : Int) * 1000000, r5)
      | _ => pure (((hh * 3600 + mm * 60 : Nat) : Int) * 1000000, r3)
  | _ => pure (((hh * 3600 : Nat) : Int) * 1000000, r1)

/-- Parse a trailing UTC offset in seconds; `none` in the first component
means a naive result. -/
def parseOffsetPart (cs : List Char) : Option (Option Int × List Char) :=
  match cs with
  | [] => some (none, [])
  | 'Z' :: r => some (some 0, r)
  | '+' :: r => parseSignedOffset 1 r
  | '-' :: r => parseSignedOffset (-1) r
  | _ => none
where
  parseSignedOffset (sgn : Int) (r : List Char) : Option (Option Int × List Char) := do
    let (hh, r1) ← takeDigits 2 r
    if hh ≥ 24 then none else
    match r1 with
    | ':' :: r2 => do
        let (mm, r3) ← takeDigits 2 r2
        if mm ≥ 60 then none else
        pure (some (sgn * ((hh : Int) * 3600 + (mm : Int) * 60)), r3)
    | c :: _ =>
        if c.isDigit then do
          let (mm, r3) ← takeDigits 2 r1
          if mm ≥ 60 then none else
          pure (some (sgn * ((hh : Int) * 3600 + (mm : Int) * 60)), r3)
        else pure (some (sgn * (hh : Int) * 3600), r1)
    | [] => pure (some (sgn * (hh : Int) * 3600), [])

/-- `dateutil.parser.isoparse`, total: `none` where the library raises. -/
def isoparse (s : String) : Option Datetime := do
  let (y, m, d, r) ← parseDatePart s.data
  if 1 ≤ y ∧ y ≤ 9999 ∧ 1 ≤ m ∧ m ≤ 12 ∧ 1 ≤ d ∧ d ≤ daysInMonth y m then
    let dayUs : Int := days_from_civil y m d * 86400000000
    match r with
    | [] => pure ⟨dayUs, none⟩
    | 'T' :: rt => do
        let (us, r2) ← parseTimePart rt
        let (tzo, r3) ← parseOffsetPart r2
        if r3 = [] then
          match tzo with
          | none => pure ⟨dayUs + us, none⟩
          | some o => pure ⟨dayUs + us - o * 1000000, some o⟩
        else none
    | _ => none
  else none

/-! ## `datetime` methods used by the module -/

/-- Zero-pad a natural number to `w` digits. -/
def padNum (w : Nat) (n : Nat) : String :=
  let s := toString n
  if s.length < w then String.mk (List.replicate (w - s.length) '0') ++ s else s

/-- `datetime.isoformat()`: wall-clock fields, `T` separator, seconds always
shown, microseconds only when nonzero, offset suffix only when aware. -/
def Datetime.isoformat (dt : Datetime) : String :=
  let ofs : Int := dt.tz.getD 0
  let wallUs : Int := dt.utcUs + ofs * 1000000
  let n : Int := Int.fdiv wallUs 1000000
  let fracUs : Nat := (wallUs - n * 1000000).toNat
  let days : Int := Int.fdiv n 86400
  let sod : Nat := (n - days * 86400).toNat
  let ymd := civil_from_days days
  let base :=
    padNum 4 ymd.1.toNat ++ "-" ++ padNum 2 ymd.2.1.toNat ++ "-" ++ padNum 2 ymd.2.2.toNat ++
    "T" ++ padNum 2 (sod / 3600) ++ ":" ++ padNum 2 (sod % 3600 / 60) ++ ":" ++ padNum 2 (sod % 60)
  let withFrac := if fracUs = 0 then base else base ++ "." ++ padNum 6 fracUs
  match dt.tz with
  | none => withFrac
  | some o =>
      let mag := o.natAbs
      withFrac ++ (if o < 0 then "-" else "+") ++ padNum 2 (mag / 3600) ++ ":" ++ padNum 2 (mag % 3600 / 60)

/-- `datetime.utcfromtimestamp` on an instant given in exact microseconds: a
naive UTC datetime, raising `OverflowError` outside the representable range
(0001-01-01 .. 9999-12-31). -/
def utcfromtimestampUs (us : Int) : Except PyExn Datetime :=
  if -62135596800000000 ≤ us ∧ us < 253402300800000000 then .ok ⟨us, none⟩
  else .error .overflowError

/-- `datetime.utcfromtimestamp` on an integer number of seconds. -/
def utcfromtimestampI (n : Int) : Except PyExn Datetime :=
  utcfromtimestampUs (n * 1000000)

/-- `datetime.utcfromtimestamp` on a Python float number of seconds: `nan`
raises `ValueError`, infinities and out-of-range values raise
`OverflowError`; finite values are rounded to microseconds. -/
def utcfromtimestampF : PyFloat → Except PyExn Datetime
  | .finite x => utcfromtimestampUs (Frac.roundI ⟨x.num * 1000000, x.den⟩)
  | .nan => .error .valueError
  | _ => .error .overflowError

/-! ## `_parse_created_at` (main.py lines 32–51) -/

/-- `_parse_created_at(value)`: accepts an ISO string, an epoch number
(milliseconds when `> 10_000_000_000`, else seconds) or a `datetime`;
returns `some` instant or `none`.  Python `bool` is an `int` subclass, so it
takes the numeric branch (as value 0 or 1, never above the millisecond
threshold).  `datetime.utcfromtimestamp` can raise on extreme numerics, so
the result lives in `Except`. -/
def _parse_created_at : PyVal → Except PyExn (Option Datetime)
  | .noneV => .ok none
  | .dtV d => .ok (some d)
  | .boolV b => (utcfromtimestampI (if b then 1 else 0)).map some
  | .intV n =>
      if n > 10000000000 then (utcfromtimestampUs (n * 1000)).map some
      else (utcfromtimestampI n).map some
  | .floatV f =>
      if f.gtI 10000000000 then (utcfromtimestampF (f.divNat 1000)).map some
      else (utcfromtimestampF f).map some
  | .strV s => .ok (isoparse s)
  | .listV _ => .ok none
  | .dictV _ => .ok none

/-! ## Python coercions `str`, `float`, `int` -/

/-- A single-quote character, as Python `repr` uses around strings. -/
def squote : String := String.mk [Char.ofNat 39]

/-- Rendering of a float.  Python prints the shortest decimal that round-trips
through binary64; this model prints `n.0` for integers and `num/den`
otherwise.  No claim renders a float, so only the integer case matters. -/
def pyFloatRepr : PyFloat → String
  | .finite a => if a.den = 1 then toString a.num ++ ".0" else toString a.num ++ "/" ++ toString a.den
  | .inf => "inf"
  | .ninf => "-inf"
  | .nan => "nan"

/-- Python `repr`.  String escaping inside container reprs is approximated
(no claim evaluates a container repr). -/
def pyRepr : PyVal → String
  | .noneV => "None"
  | .boolV b => if b then "True" else "False"
  | .intV n => toString n
  | .floatV f => pyFloatRepr f
  | .strV s => squote ++ s ++ squote
  | .dtV d => "datetime.datetime(" ++ d.isoformat ++ ")"
  | .listV xs => "[" ++ String.intercalate ", " (xs.attach.map fun x => pyRepr x.1) ++ "]"
  | .dictV es =>
      "\x7b" ++
      String.intercalate ", "
        (es.attach.map fun e => squote ++ e.1.1 ++ squote ++ ": " ++ pyRepr e.1.2) ++
      "\x7d"
decreasing_by
  all_goals simp_wf
  all_goals try (have hx := List.sizeOf_lt_of_mem x.2; omega)
  all_goals (have he := List.sizeOf_lt_of_mem e.2; rcases e with ⟨⟨a, b⟩, hm⟩; simp_all; omega)

/-- Python `str`: identity on strings, space-separated ISO form on datetimes,
`repr` on everything else. -/
def pyStr : PyVal → String
  | .strV s => s
  | .dtV d => d.isoformat.map fun c => if c = 'T' then ' ' else c
  | v => pyRepr v

/-- Mantissa-with-exponent part of `float(str)`. -/
def parseFloatDec (cs : List Char) : Option Frac :=
  let ip := cs.takeWhile Char.isDigit
  let r1 := cs.dropWhile Char.isDigit
  let fpr2 : List Char × List Char :=
    match r1 with
    | '.' :: rest => (rest.takeWhile Char.isDigit, rest.dropWhile Char.isDigit)
    | _ => ([], r1)
  let fp := fpr2.1
  let r2 := fpr2.2
  if ip.isEmpty ∧ fp.isEmpty then none
  else
    let mant : Int := (digitsToNat (ip ++ fp) : Int)
    let fden : Nat := 10 ^ fp.length
    match r2 with
    | [] => some ⟨mant, fden⟩
    | 'e' :: r3 => parseExpPart mant fden r3
    | 'E' :: r3 => parseExpPart mant fden r3
    | _ => none
where
  parseExpPart (mant : Int) (fden : Nat) (r : List Char) : Option Frac :=
    let sgnr : Int × List Char :=
      match r with
      | '+' :: t => (1, t)
      | '-' :: t => (-1, t)
      | _ => (1, r)
    let ds := sgnr.2.takeWhile Char.isDigit
    if ds.isEmpty ∨ !(sgnr.2.dropWhile Char.isDigit).isEmpty then none
    else
      let e := digitsToNat ds
      if 0 ≤ sgnr.1 then some ⟨mant * 10 ^ e, fden⟩ else some ⟨mant, fden * 10 ^ e⟩

/-- ASCII lowercase. -/
def lowerAscii (c : Char) : Char :=
  if 'A' ≤ c ∧ c ≤ 'Z' then Char.ofNat (c.toNat + 32) else c

/-- Python `float(str)`: optional surrounding whitespace and sign, `inf`,
`infinity` and `nan` (case-insensitive) or a decimal with optional exponent.
`none` where CPython raises `ValueError`.  Digit-group underscores are not
modelled, and values overflowing binary64 stay exact here instead of becoming
`inf`; no claim exercises either. -/
def parseFloatStr (s : String) : Option PyFloat :=
  let cs := (s.data.dropWhile Char.isWhitespace).reverse.dropWhile Char.isWhitespace |>.reverse
  let sgnr : Int × List Char :=
    match cs with
    | '+' :: t => (1, t)
    | '-' :: t => (-1, t)
    | _ => (1, cs)
  let low := sgnr.2.map lowerAscii
  if low = "inf".data ∨ low = "infinity".data then
    some (if 0 ≤ sgnr.1 then .inf else .ninf)
  else if low = "nan".data then some .nan
  else (parseFloatDec sgnr.2).map fun fr => .finite ⟨sgnr.1 * fr.num, fr.den⟩

/-- Python `float(v)` (also pydantic v1's coercion for `float` fields). -/
def pyFloatCoerce : PyVal → Except PyExn PyFloat
  | .intV n => .ok (.finite (Frac.ofInt n))
  | .floatV f => .ok f
  | .boolV b => .ok (.finite (Frac.ofInt (if b then 1 else 0)))
  | .strV s =>
      match parseFloatStr s with
      | some f => .ok f
      | none => .error .valueError
  | _ => .error .typeError

/-- Python `int(v)` (pydantic v1's coercion for `int` fields): floats truncate
toward zero, strings must be optionally-signed decimal integers. -/
def pyToInt : PyVal → Except PyExn Int
  | .intV n => .ok n
  | .boolV b => .ok (if b then 1 else 0)
  | .floatV (.finite x) => .ok x.trunc
  | .floatV _ => .error .overflowError
  | .strV s =>
      let cs := (s.data.dropWhile Char.isWhitespace).reverse.dropWhile Char.isWhitespace |>.reverse
      let sgnr : Int × List Char :=
        match cs with
        | '+' :: t => (1, t)
        | '-' :: t => (-1, t)
        | _ => (1, cs)
      if sgnr.2.isEmpty ∨ !sgnr.2.all Char.isDigit then .error .valueError
      else .ok (sgnr.1 * (digitsToNat sgnr.2 : Int))
  | _ => .error .typeError

/-! ## Pydantic response models (main.py lines 57–89) -/

/-- `Transaction` (pydantic): the validated domain entity. -/
structure Transaction where
  id : String
  type : String
  created_at : Datetime
  client_id : String
  payer_id : String
  amount : PyFloat
deriving DecidableEq, Repr

/-- `TransactionSearchItem` (pydantic). -/
structure TransactionSearchItem where
  id : String
  score : PyFloat
  source : Transaction
deriving DecidableEq, Repr

/-- `TransactionSearchResponse` (pydantic). -/
structure TransactionSearchResponse where
  total : Int
  page : Int
  size : Int
  items : List TransactionSearchItem
deriving DecidableEq, Repr

/-- `DailyTotalsBucket` (pydantic); `totalsByType` is a Python dict, modelled
as its insertion-ordered association list with unique keys. -/
structure DailyTotalsBucket where
  date : Datetime
  totalsByType : List (String × PyFloat)
  totalAllTypes : PyFloat
deriving DecidableEq, Repr

/-- `DailyTotalsResponse` (pydantic). -/
structure DailyTotalsResponse where
  clientId : String
  startDate : Datetime
  endDate : Datetime
  buckets : List DailyTotalsBucket
deriving DecidableEq, Repr

/-- Constructing `Transaction(...)` in `search_transactions` validates the
six fields against the annotations `str`, `str`, `datetime`, `str`, `str`,
`float`.  Every argument the handler passes is already of exactly that
Python type (`str(...)`, `float(...)`-with-default, `_parse_created_at`
result), and pydantic v1 accepts values of the annotated type unchanged, so
validation always succeeds; the `except ValidationError: continue` branch is
kept visible through the `Option`. -/
def pydanticValidateTransaction (id type : String) (created_at : Datetime)
    (client_id payer_id : String) (amount : PyFloat) : Option Transaction :=
  some ⟨id, type, created_at, client_id, payer_id, amount⟩

/-! ## HTTP-level error model -/

/-- The two ways a handler run can end in an error response: an explicit
`HTTPException(status_code, detail)`, or an exception that escapes the
handler and becomes the framework's generic 500. -/
inductive HTTPError where
  | httpException (status : Nat) (detail : String)
  | unhandled (e : PyExn)
deriving DecidableEq, Repr

/-- Lift an uncaught Python exception into the handler result. -/
def liftE {α : Type} : Except PyExn α → Except HTTPError α
  | .ok a => .ok a
  | .error e => .error (.unhandled e)

/-- `parse_iso` (main.py lines 25–29): `HTTPException(400, ...)` on failure.
The Python detail string also embeds the exception text; the model keeps the
fixed prefix and the offending value. -/
def parse_iso (s : String) : Except HTTPError Datetime :=
  match isoparse s with
  | some d => .ok d
  | none => .error (.httpException 400 ("Data inválida: " ++ s))

/-- `ES_INDEX` (default environment value). -/
def ES_INDEX : String := "transactions"

/-- The request the module hands to `Elasticsearch.search`: index, optional
`from_`, `size`, `query`, optional `sort`, optional `aggs`. -/
structure EsSearchReq where
  index : String
  fromOfs : Option Int
  size : Int
  query : PyVal
  sortSpec : Option PyVal
  aggsSpec : Option PyVal

/-! ## Query construction (main.py lines 113–123 and 194–217) -/

/-- The filter query built by `search_transactions` (lines 113–120). -/
def search_query (client_id : String) (start end_ : Datetime) : PyVal :=
  .dictV [("bool", .dictV [("filter", .listV [
    .dictV [("term", .dictV [("client_id", .strV client_id)])],
    .dictV [("range", .dictV [("created_at", .dictV [
      ("gte", .strV start.isoformat), ("lte", .strV end_.isoformat)])])]])])]

/-- The sort specification of `search_transactions` (line 123). -/
def search_sort : PyVal :=
  .listV [.dictV [("created_at", .dictV [("order", .strV "desc")])]]

/-- The filter query built by `stats_daily` (lines 194–201). -/
def stats_query (client_id : String) (start end_ : Datetime) : PyVal :=
  .dictV [("bool", .dictV [("filter", .listV [
    .dictV [("term", .dictV [("client_id", .strV client_id)])],
    .dictV [("range", .dictV [("created_at", .dictV [
      ("gte", .strV start.isoformat), ("lte", .strV end_.isoformat)])])]])])]

/-- The aggregation tree of `stats_daily` (lines 203–217). -/
def stats_aggs : PyVal :=
  .dictV [("per_day", .dictV [
    ("date_histogram", .dictV [
      ("field", .strV "created_at"),
      ("fixed_interval", .strV "1d"),
      ("min_doc_count", .intV 0)]),
    ("aggs", .dictV [
      ("by_type", .dictV [
        ("terms", .dictV [("field", .strV "type"), ("size", .intV 20)]),
        ("aggs", .dictV [("total_amount", .dictV [("sum", .dictV [("field", .strV "amount")])])])])])])]

/-! ## The search hit mapper (main.py lines 134–171, body of the `for` loop) -/

/-- `src = h.get("_source", {}) or {}` (line 135). -/
def hitSource (h : PyVal) : Except PyExn PyVal := do
  let s ← h.get "_source" (.dictV [])
  pure (if s.truthy then s else .dictV [])

/-- `tx_id = str(src.get("id") or h.get("_id", ""))` (line 137); `or` only
evaluates its right operand when the left is falsy. -/
def txIdOf (h src : PyVal) : Except PyExn String := do
  let idv ← src.get "id" .noneV
  let base ← if idv.truthy then pure idv else h.get "_id" (.strV "")
  pure (pyStr base)

/-- `tx_type = str(src.get("type", ""))` (line 138). -/
def txTypeOf (src : PyVal) : Except PyExn String := do
  let v ← src.get "type" (.strV "")
  pure (pyStr v)

/-- `tx_client = str(src.get("client_id", ""))` (line 139). -/
def txClientOf (src : PyVal) : Except PyExn String := do
  let v ← src.get "client_id" (.strV "")
  pure (pyStr v)

/-- `tx_payer = str(src.get("payer_id", ""))` (line 140). -/
def txPayerOf (src : PyVal) : Except PyExn String := do
  let v ← src.get "payer_id" (.strV "")
  pure (pyStr v)

/-- Lines 141–146: `amount` defaults to `0.0` at lookup, and the
`float(...)` coercion falls back to `0.0` on any exception. -/
def txAmountOf (src : PyVal) : Except PyExn PyFloat := do
  let raw ← src.get "amount" (.floatV (.finite (Frac.ofInt 0)))
  pure (match pyFloatCoerce raw with
        | .ok f => f
        | .error _ => .finite (Frac.ofInt 0))

/-- Lines 148–150: `created_at` through `_parse_created_at`, `None`
replaced by the Unix epoch. -/
def txCreatedOf (src : PyVal) : Except PyExn Datetime := do
  let raw ← src.get "created_at" .noneV
  let c ← _parse_created_at raw
  pure (c.getD epochDt)

/-- `score=h.get("_score") or 0.0` (line 168) followed by pydantic's float
coercion of the `score` field; a coercion failure there is a
`ValidationError` raised outside the `try`, escaping the handler. -/
def hitScoreOf (h : PyVal) : Except PyExn PyFloat := do
  let sv ← h.get "_score" .noneV
  let sv1 := if sv.truthy then sv else .floatV (.finite (Frac.ofInt 0))
  match pyFloatCoerce sv1 with
  | .ok f => pure f
  | .error _ => .error .validationError

/-- One iteration of the hit loop: `none` models `continue` on a
`ValidationError` from `Transaction(...)`. -/
def mapHit (h : PyVal) : Except PyExn (Option TransactionSearchItem) := do
  let src ← hitSource h
  let tx_id ← txIdOf h src
  let tx_type ← txTypeOf src
  let tx_client ← txClientOf src
  let tx_payer ← txPayerOf src
  let tx_amount ← txAmountOf src
  let tx_created ← txCreatedOf src
  match pydanticValidateTransaction tx_id tx_type tx_created tx_client tx_payer tx_amount with
  | none => pure none
  | some tx => do
      let score ← hitScoreOf h
      pure (some ⟨tx.id, score, tx⟩)

/-- The whole hit loop: skipped hits vanish, order is preserved. -/
def runHits : List PyVal → Except PyExn (List TransactionSearchItem)
  | [] => .ok []
  | h :: t => do
      let r ← mapHit h
      let rest ← runHits t
      pure (match r with
            | some it => it :: rest
            | none => rest)

/-! ## `search_transactions` (main.py lines 100–173)

FastAPI validates `page ≥ 1` and `1 ≤ size ≤ 100` before the handler runs;
the model takes them as plain integers and theorems restate the bounds where
they matter. -/

/-- The search handler, parameterized by the engine call. -/
def search_transactions (es : EsSearchReq → Except String PyVal)
    (client_id startDate endDate : String) (page size : Int) :
    Except HTTPError TransactionSearchResponse := do
  let start ← parse_iso startDate
  let end_ ← parse_iso endDate
  let from_ := (page - 1) * size
  let resp ← match es ⟨ES_INDEX, some from_, size, search_query client_id start end_,
                       some search_sort, none⟩ with
    | .ok r => pure r
    | .error e => .error (.httpException 500 ("Elasticsearch error: " ++ e))
  let hits ← liftE (resp.get "hits" (.dictV []))
  let totalRaw ← liftE (do
    let t ← hits.get "total" (.dictV [])
    t.get "value" (.intV 0))
  let hitsVal ← liftE (hits.get "hits" (.listV []))
  let hl ← liftE hitsVal.iter
  let items ← liftE (runHits hl)
  let total ← liftE (pyToInt totalRaw)
  pure ⟨total, page, size, items⟩

/-! ## `stats_daily` (main.py lines 184–250) -/

/-- Python dict assignment `d[k] = v`: updates the value in place when the
key exists, otherwise appends. -/
def dictInsert (d : List (String × PyFloat)) (k : String) (v : PyFloat) :
    List (String × PyFloat) :=
  if d.any (fun p => p.1 == k) then d.map (fun p => if p.1 == k then (k, v) else p)
  else d ++ [(k, v)]

/-- The inner per-type loop (lines 235–244) as a fold over
`(totals_by_type, total_all)`. -/
def mapByType : List PyVal → List (String × PyFloat) × PyFloat →
    Except PyExn (List (String × PyFloat) × PyFloat)
  | [], acc => .ok acc
  | tb :: rest, (d, t) => do
      let kv ← tb.get "key" (.strV "")
      let tkey := pyStr kv
      let s ← tb.get "total_amount" (.dictV [])
      let v0 ← s.get "value" (.floatV (.finite (Frac.ofInt 0)))
      let v1 := if v0.truthy then v0 else .floatV (.finite (Frac.ofInt 0))
      let val := match pyFloatCoerce v1 with
        | .ok f => f
        | .error _ => .finite (Frac.ofInt 0)
      mapByType rest (dictInsert d tkey val, t.add val)

/-- One per-day bucket (lines 227–248).  `_parse_created_at(...) or epoch`:
datetimes are always truthy, so only `None` is replaced. -/
def mapDailyBucket (b : PyVal) : Except PyExn DailyTotalsBucket := do
  let kAs ← b.get "key_as_string" .noneV
  let dOpt ← _parse_created_at kAs
  let day := dOpt.getD epochDt
  let bt ← b.get "by_type" (.dictV [])
  let bl0 ← bt.get "buckets" (.listV [])
  let bl := if bl0.truthy then bl0 else .listV []
  let tbs ← bl.iter
  let acc ← mapByType tbs ([], .finite (Frac.ofInt 0))
  pure ⟨day, acc.1, acc.2⟩

/-- The per-day loop, preserving engine order. -/
def mapBuckets : List PyVal → Except PyExn (List DailyTotalsBucket)
  | [] => .ok []
  | b :: rest => do
      let x ← mapDailyBucket b
      let xs ← mapBuckets rest
      .ok (x :: xs)

/-- The daily aggregation handler, parameterized by the engine call. -/
def stats_daily (es : EsSearchReq → Except String PyVal)
    (client_id startDate endDate : String) : Except HTTPError DailyTotalsResponse := do
  let start ← parse_iso startDate
  let end_ ← parse_iso endDate
  let resp ← match es ⟨ES_INDEX, none, 0, stats_query client_id start end_,
                       none, some stats_aggs⟩ with
    | .ok r => pure r
    | .error e => .error (.httpException 500 ("Elasticsearch error: " ++ e))
  let aggs ← liftE (resp.get "aggregations" (.dictV []))
  let pd ← liftE (aggs.get "per_day" (.dictV []))
  let pdb0 ← liftE (pd.get "buckets" (.listV []))
  let pdb := if pdb0.truthy then pdb0 else .listV []
  let bl ← liftE pdb.iter
  let buckets ← liftE (mapBuckets bl)
  pure ⟨client_id, start, end_, buckets⟩

/-! ## Spec-side definitions and derived notions used by the claims -/

/-- Modelled from the spec (§3): the Transaction invariant — every field
present and correctly typed (automatic in the typed model), `id` a non-empty
string, `amount` a finite float. -/
def specTransactionInvariantB (tx : Transaction) : Bool :=
  decide (tx.id ≠ "") && tx.amount.isFiniteB

/-- The float sum `0.0 + v₀ + v₁ + ⋯` in left-to-right order, exactly the
accumulation order of `total_all` and of `sum(totalsByType.values())`. -/
def pyFloatSum (vals : List PyFloat) : PyFloat :=
  vals.foldl PyFloat.add (.finite (Frac.ofInt 0))

/-- The stringified `key` of each per-type sub-bucket, in order (the same
lookups the loop performs). -/
def tbKeys : List PyVal → Except PyExn (List String)
  | [] => .ok []
  | tb :: rest => do
      let kv ← tb.get "key" (.strV "")
      let ks ← tbKeys rest
      .ok (pyStr kv :: ks)

/-! ## Helper lemmas -/

lemma except_bind_ok {ε α β : Type} {x : Except ε α} {f : α → Except ε β} {b : β} :
    (x >>= f) = .ok b ↔ ∃ a, x = .ok a ∧ f a = .ok b := by
  cases x <;> simp [Bind.bind, Except.bind]

lemma liftE_ok {α : Type} {x : Except PyExn α} {a : α} :
    liftE x = .ok a ↔ x = .ok a := by
  cases x <;> simp [liftE]

lemma runHits_length : ∀ (l : List PyVal) (items : List TransactionSearchItem),
    runHits l = .ok items → items.length ≤ l.length := by
  intro l
  induction l with
  | nil => intro items h; simp [runHits] at h; simp [← h]
  | cons hd tl ih =>
      intro items h
      simp only [runHits, except_bind_ok] at h
      obtain ⟨r, _, rest, hrest, hpure⟩ := h
      have hlen := ih rest hrest
      cases hpure
      cases r <;> simp <;> omega

lemma dictInsert_fresh (d : List (String × PyFloat)) (k : String) (v : PyFloat)
    (hk : k ∉ d.map Prod.fst) : dictInsert d k v = d ++ [(k, v)] := by
  unfold dictInsert
  have : d.any (fun p => p.1 == k) = false := by
    simp only [List.any_eq_false]
    intro p hp
    simp only [beq_iff_eq]
    intro hpk
    exact hk (List.mem_map.mpr ⟨p, hp, hpk⟩)
  simp [this]

/-- Invariant of the inner per-type loop: as long as every upcoming key is
fresh for the accumulated dict and the upcoming keys are distinct, the
running total stays the sum of the dict values. -/
lemma mapByType_total : ∀ (tbs : List PyVal) (ks : List String)
    (d0 : List (String × PyFloat)) (t0 : PyFloat) (d : List (String × PyFloat)) (t : PyFloat),
    tbKeys tbs = .ok ks → ks.Nodup → (∀ k ∈ ks, k ∉ d0.map Prod.fst) →
    t0 = pyFloatSum (d0.map Prod.snd) →
    mapByType tbs (d0, t0) = .ok (d, t) → t = pyFloatSum (d.map Prod.snd) := by
  intro tbs
  induction tbs with
  | nil =>
      intro ks d0 t0 d t _ _ _ ht0 hrun
      simp only [mapByType] at hrun
      cases hrun
      exact ht0
  | cons tb rest ih =>
      intro ks d0 t0 d t hkeys hnd hfresh ht0 hrun
      simp only [tbKeys, except_bind_ok] at hkeys
      obtain ⟨kv, hkv, ks', hks', hcons⟩ := hkeys
      cases hcons
      simp only [mapByType, except_bind_ok, hkv, Except.ok.injEq, exists_eq_left'] at hrun
      obtain ⟨s, hs, v0, hv0, hrun⟩ := hrun
      set val := (match pyFloatCoerce (if v0.truthy = true then v0 else .floatV (.finite (Frac.ofInt 0))) with
        | .ok f => f
        | .error _ => .finite (Frac.ofInt 0)) with hval
      have hfreshk : pyStr kv ∉ d0.map Prod.fst := hfresh _ (List.mem_cons_self _ _)
      rw [dictInsert_fresh d0 (pyStr kv) val hfreshk] at hrun
      apply ih ks' (d0 ++ [(pyStr kv, val)]) (t0.add val) d t hks' hnd.of_cons _ _ hrun
      · intro k hk
        simp only [List.map_append, List.mem_append, List.map_cons, List.map_nil,
          List.mem_singleton, not_or]
        constructor
        · exact hfresh k (List.mem_cons_of_mem _ hk)
        · intro heq
          rcases List.nodup_cons.mp hnd with ⟨hnotin, _⟩
          exact hnotin (heq ▸ hk)
      · simp [pyFloatSum, ht0, List.foldl_append]

/-! ## Claim theorems -/

/-- C2: the Timestamp Normalizer maps the ISO string "2024-01-01T00:00:00Z",
the epoch-seconds integer 1704067200 and the epoch-milliseconds integer
1704067200000 to the identical UTC instant (the string parse carries a UTC
offset, the numeric parses are naive UTC datetimes; all three denote the
same instant, 2024-01-01T00:00:00Z). -/
theorem C2_timestamp_normalizer_equivalences :
    _parse_created_at (.strV "2024-01-01T00:00:00Z") = .ok (some ⟨1704067200000000, some 0⟩) ∧
    _parse_created_at (.intV 1704067200) = .ok (some ⟨1704067200000000, none⟩) ∧
    _parse_created_at (.intV 1704067200000) = .ok (some ⟨1704067200000000, none⟩) ∧
    Datetime.instant ⟨1704067200000000, some 0⟩ = Datetime.instant ⟨1704067200000000, none⟩ := by
  refine ⟨by decide, by decide, by decide, rfl⟩

/-- C3 (code bug): `_parse_created_at` promises "retorna datetime (UTC) ou
None se não der pra parsear", but for extreme numeric inputs
`datetime.utcfromtimestamp` raises instead of returning: the epoch number
`10 ^ 20` raises `OverflowError` (it exceeds year 9999 even after the
millisecond division) and the float `nan` raises `ValueError`. -/
theorem C3_parse_created_at_raises_on_extreme_numerics :
    _parse_created_at (.intV (10 ^ 20)) = .error .overflowError ∧
    _parse_created_at (.floatV .nan) = .error .valueError := by
  refine ⟨by decide, by decide⟩

/-- C8: the Timestamp Normalizer returns Unparseable (`none`) for null
input, for every string that fails ISO-8601 parsing, and for every input of
a type other than datetime, numeric or string (lists and dicts; Python
`bool` is an `int` subclass, so it counts as numeric). -/
theorem C8_unparseable_inputs :
    _parse_created_at .noneV = .ok none ∧
    (∀ s : String, isoparse s = none → _parse_created_at (.strV s) = .ok none) ∧
    (∀ xs : List PyVal, _parse_created_at (.listV xs) = .ok none) ∧
    (∀ es : List (String × PyVal), _parse_created_at (.dictV es) = .ok none) := by
  refine ⟨rfl, ?_, fun _ => rfl, fun _ => rfl⟩
  intro s hs
  simp [_parse_created_at, hs]

/-- Witness for C8 at concrete inputs: the string "not-a-date" fails ISO
parsing and normalizes to Unparseable, as do the empty list and dict. -/
theorem C8_unparseable_inputs_witness :
    _parse_created_at (.strV "not-a-date") = .ok none ∧
    _parse_created_at (.listV []) = .ok none ∧
    _parse_created_at (.dictV []) = .ok none := by
  exact ⟨C8_unparseable_inputs.2.1 "not-a-date" (by decide),
         C8_unparseable_inputs.2.2.1 [],
         C8_unparseable_inputs.2.2.2 []⟩

/-- C9: for the same `(client_id, start, end)` the filter expression sent by
the search handler and the one sent by the daily aggregation handler are
identical, and both are the conjunction of an exact-match on `client_id`
with an inclusive (`gte`/`lte`) range on `created_at` whose bounds are the
ISO-8601 serializations of `start` and `end`. -/
theorem C9_filter_reuse :
    ∀ (client_id : String) (start end_ : Datetime),
      search_query client_id start end_ = stats_query client_id start end_ ∧
      search_query client_id start end_ =
        .dictV [("bool", .dictV [("filter", .listV [
          .dictV [("term", .dictV [("client_id", .strV client_id)])],
          .dictV [("range", .dictV [("created_at", .dictV [
            ("gte", .strV start.isoformat), ("lte", .strV end_.isoformat)])])]])])] := by
  intro client_id start end_
  exact ⟨rfl, rfl⟩

/-- C10: the daily aggregation derives a bucket's date exclusively from
`key_as_string`: whenever that field is absent or unparseable (the
normalizer yields `None`), the bucket's date is the Unix epoch — regardless
of any other field, including a numeric `key`. -/
theorem C10_bucket_date_from_key_as_string :
    ∀ (bd : List (String × PyVal)) (bkt : DailyTotalsBucket),
      _parse_created_at ((bd.lookup "key_as_string").getD .noneV) = .ok none →
      mapDailyBucket (.dictV bd) = .ok bkt → bkt.date = epochDt := by
  intro bd bkt hparse hrun
  simp only [mapDailyBucket, except_bind_ok] at hrun
  obtain ⟨kAs, hkAs, dOpt, hdOpt, hrun⟩ := hrun
  simp only [PyVal.get] at hkAs
  cases hkAs
  rw [hparse] at hdOpt
  cases hdOpt
  obtain ⟨bt, _, bl0, _, tbs, _, acc, _, hpure⟩ := hrun
  cases hpure
  rfl

/-- Witness for C10: a bucket that has a numeric `key` (epoch milliseconds
of 2024-01-01) but no `key_as_string` still gets the epoch as its date. -/
theorem C10_bucket_date_from_key_as_string_witness :
    mapDailyBucket (.dictV [("key", .intV 1704067200000)]) =
      .ok ⟨epochDt, [], .finite (Frac.ofInt 0)⟩ ∧
    (⟨epochDt, [], .finite (Frac.ofInt 0)⟩ : DailyTotalsBucket).date = epochDt := by
  refine ⟨by decide, ?_⟩
  exact C10_bucket_date_from_key_as_string [("key", .intV 1704067200000)] _ (by decide) (by decide)

/-- C7: the Result Mapper's defaults, one conjunct per defaulting rule of the
loop body: a missing `id` falls back to `str` of the engine document id
(`h.get("_id", "")`); missing `type`, `client_id`, `payer_id` become the
empty string; an `amount` whose `float(...)` coercion raises becomes `0.0`;
a `created_at` the Timestamp Normalizer cannot parse becomes the Unix
epoch. -/
theorem C7_result_mapper_defaults :
    (∀ (hs ss : List (String × PyVal)), ss.lookup "id" = none →
        txIdOf (.dictV hs) (.dictV ss) = .ok (pyStr ((hs.lookup "_id").getD (.strV "")))) ∧
    (∀ ss : List (String × PyVal), ss.lookup "type" = none →
        txTypeOf (.dictV ss) = .ok "") ∧
    (∀ ss : List (String × PyVal), ss.lookup "client_id" = none →
        txClientOf (.dictV ss) = .ok "") ∧
    (∀ ss : List (String × PyVal), ss.lookup "payer_id" = none →
        txPayerOf (.dictV ss) = .ok "") ∧
    (∀ (ss : List (String × PyVal)) (v : PyVal) (e : PyExn), ss.lookup "amount" = some v →
        pyFloatCoerce v = .error e → txAmountOf (.dictV ss) = .ok (.finite (Frac.ofInt 0))) ∧
    (∀ (ss : List (String × PyVal)) (v : PyVal), ss.lookup "created_at" = some v →
        _parse_created_at v = .ok none → txCreatedOf (.dictV ss) = .ok epochDt) := by
  refine ⟨?_, ?_, ?_, ?_, ?_, ?_⟩
  · intro hs ss hid
    simp [txIdOf, PyVal.get, hid, PyVal.truthy, bind, Except.bind, pure, Except.pure]
  · intro ss h
    simp [txTypeOf, PyVal.get, h, bind, Except.bind, pure, Except.pure, pyStr]
  · intro ss h
    simp [txClientOf, PyVal.get, h, bind, Except.bind, pure, Except.pure, pyStr]
  · intro ss h
    simp [txPayerOf, PyVal.get, h, bind, Except.bind, pure, Except.pure, pyStr]
  · intro ss v e hv hc
    simp [txAmountOf, PyVal.get, hv, hc, bind, Except.bind, pure, Except.pure]
  · intro ss v hv hp
    simp [txCreatedOf, PyVal.get, hv, hp, bind, Except.bind, pure, Except.pure]

/-- Witness for C7 at concrete inputs: no `id` anywhere falls back to the
engine id "E1"; missing `type`/`client_id`/`payer_id` become ""; the
non-coercible amount "abc" becomes 0.0; the unparseable timestamp
"not-a-date" becomes the epoch. -/
theorem C7_result_mapper_defaults_witness :
    txIdOf (.dictV [("_id", .strV "E1")]) (.dictV []) = .ok "E1" ∧
    txTypeOf (.dictV []) = .ok "" ∧
    txClientOf (.dictV []) = .ok "" ∧
    txPayerOf (.dictV []) = .ok "" ∧
    txAmountOf (.dictV [("amount", .strV "abc")]) = .ok (.finite (Frac.ofInt 0)) ∧
    txCreatedOf (.dictV [("created_at", .strV "not-a-date")]) = .ok epochDt := by
  refine ⟨?_, ?_, ?_, ?_, ?_, ?_⟩
  · simpa using C7_result_mapper_defaults.1 [("_id", .strV "E1")] [] rfl
  · exact C7_result_mapper_defaults.2.1 [] rfl
  · exact C7_result_mapper_defaults.2.2.1 [] rfl
  · exact C7_result_mapper_defaults.2.2.2.1 [] rfl
  · exact C7_result_mapper_defaults.2.2.2.2.1 [("amount", .strV "abc")] (.strV "abc")
      .valueError rfl (by decide)
  · exact C7_result_mapper_defaults.2.2.2.2.2 [("created_at", .strV "not-a-date")]
      (.strV "not-a-date") rfl (by decide)

/-- C1 counterexample: a hit whose stored document and engine metadata carry
no id at all is mapped to `id = ""` and returned — the handler returns an
item whose Transaction violates the spec's invariant (`id` non-empty), so
"returns an item only if the invariant holds" is false. -/
theorem C1_invariant_counterexample :
    (search_transactions
        (fun _ => .ok (.dictV [("hits", .dictV [
          ("total", .dictV [("value", .intV 1)]),
          ("hits", .listV [.dictV [("_source", .dictV [
            ("type", .strV "pix"), ("client_id", .strV "c1"), ("payer_id", .strV "p1"),
            ("amount", .intV 5), ("created_at", .strV "2024-01-01T00:00:00Z")])]])])]))
        "c1" "2024-01-01" "2024-01-02" 1 10).map
      (fun r => r.items.map fun it => (it.source.id, specTransactionInvariantB it.source))
    = .ok [("", false)] := by
  decide

/-- C1 amended: after defaulting, every field of the mapped Transaction is
present and correctly typed in Python's sense (`id` may be empty, `amount`
may be non-finite), so the post-defaulting pydantic validation never fails:
a hit whose processing completes without an exception always yields an item,
and a data-quality problem is never raised as a request-level error. -/
theorem C1_amended_validation_never_fails :
    ∀ (h : PyVal) (r : Option TransactionSearchItem),
      mapHit h = .ok r → r ≠ none := by
  intro h r hr
  simp only [mapHit, except_bind_ok, pydanticValidateTransaction] at hr
  obtain ⟨src, _, tid, _, tty, _, tcl, _, tpa, _, tam, _, tcr, _, sc, _, hpure⟩ := hr
  simp only [pure, Except.pure, Except.ok.injEq] at hpure
  rw [← hpure]
  simp

/-- Witness for C1 amended: the empty hit is processed without exception and
produces an item (with empty id and zeroed fields) rather than being
skipped. -/
theorem C1_amended_validation_never_fails_witness :
    mapHit (.dictV []) =
      .ok (some ⟨"", .finite (Frac.ofInt 0), ⟨"", "", epochDt, "", "", .finite (Frac.ofInt 0)⟩⟩) ∧
    (some (⟨"", .finite (Frac.ofInt 0), ⟨"", "", epochDt, "", "", .finite (Frac.ofInt 0)⟩⟩ :
        TransactionSearchItem)) ≠ none := by
  refine ⟨by decide, ?_⟩
  exact C1_amended_validation_never_fails (.dictV []) _ (by decide)

/-- C5: for every request whose `startDate` or `endDate` fails ISO-8601
parsing, both handlers return the 400 client error for every possible engine
behaviour (i.e. the result does not depend on the engine, so no upstream
call is attempted); and when the parameters parse but the engine call fails,
both handlers return the 500 service error carrying the cause. -/
theorem C5_error_handling :
    (∀ (es : EsSearchReq → Except String PyVal) (c sd ed : String) (p sz : Int),
       isoparse sd = none →
       search_transactions es c sd ed p sz =
         .error (.httpException 400 ("Data inválida: " ++ sd))) ∧
    (∀ (es : EsSearchReq → Except String PyVal) (c sd ed : String) (p sz : Int) (d : Datetime),
       isoparse sd = some d → isoparse ed = none →
       search_transactions es c sd ed p sz =
         .error (.httpException 400 ("Data inválida: " ++ ed))) ∧
    (∀ (es : EsSearchReq → Except String PyVal) (c sd ed : String),
       isoparse sd = none →
       stats_daily es c sd ed = .error (.httpException 400 ("Data inválida: " ++ sd))) ∧
    (∀ (es : EsSearchReq → Except String PyVal) (c sd ed : String) (d : Datetime),
       isoparse sd = some d → isoparse ed = none →
       stats_daily es c sd ed = .error (.httpException 400 ("Data inválida: " ++ ed))) ∧
    (∀ (c sd ed : String) (p sz : Int) (d1 d2 : Datetime) (m : String),
       isoparse sd = some d1 → isoparse ed = some d2 →
       search_transactions (fun _ => .error m) c sd ed p sz =
         .error (.httpException 500 ("Elasticsearch error: " ++ m))) ∧
    (∀ (c sd ed : String) (d1 d2 : Datetime) (m : String),
       isoparse sd = some d1 → isoparse ed = some d2 →
       stats_daily (fun _ => .error m) c sd ed =
         .error (.httpException 500 ("Elasticsearch error: " ++ m))) := by
  refine ⟨?_, ?_, ?_, ?_, ?_, ?_⟩
  · intro es c sd ed p sz h
    simp [search_transactions, parse_iso, h, bind, Except.bind]
  · intro es c sd ed p sz d h1 h2
    simp [search_transactions, parse_iso, h1, h2, bind, Except.bind]
  · intro es c sd ed h
    simp [stats_daily, parse_iso, h, bind, Except.bind]
  · intro es c sd ed d h1 h2
    simp [stats_daily, parse_iso, h1, h2, bind, Except.bind]
  · intro c sd ed p sz d1 d2 m h1 h2
    simp [search_transactions, parse_iso, h1, h2, bind, Except.bind]
  · intro c sd ed d1 d2 m h1 h2
    simp [stats_daily, parse_iso, h1, h2, bind, Except.bind]

/-- Witness for C5 at concrete inputs: "not-a-date" fails parsing in either
position for both handlers (under an engine that would answer successfully,
so the 400 demonstrably preempts the call), and a failing engine yields the
500 with the cause attached. -/
theorem C5_error_handling_witness :
    search_transactions (fun _ => .ok (.dictV [])) "c1" "not-a-date" "2024-01-02" 1 10 =
      .error (.httpException 400 "Data inválida: not-a-date") ∧
    search_transactions (fun _ => .ok (.dictV [])) "c1" "2024-01-01" "not-a-date" 1 10 =
      .error (.httpException 400 "Data inválida: not-a-date") ∧
    stats_daily (fun _ => .ok (.dictV [])) "c1" "not-a-date" "2024-01-02" =
      .error (.httpException 400 "Data inválida: not-a-date") ∧
    stats_daily (fun _ => .ok (.dictV [])) "c1" "2024-01-01" "not-a-date" =
      .error (.httpException 400 "Data inválida: not-a-date") ∧
    search_transactions (fun _ => .error "boom") "c1" "2024-01-01" "2024-01-02" 1 10 =
      .error (.httpException 500 "Elasticsearch error: boom") ∧
    stats_daily (fun _ => .error "boom") "c1" "2024-01-01" "2024-01-02" =
      .error (.httpException 500 "Elasticsearch error: boom") := by
  refine ⟨?_, ?_, ?_, ?_, ?_, ?_⟩
  · exact C5_error_handling.1 _ "c1" "not-a-date" "2024-01-02" 1 10 (by decide)
  · exact C5_error_handling.2.1 _ "c1" "2024-01-01" "not-a-date" 1 10
      ⟨1704067200000000, none⟩ (by decide) (by decide)
  · exact C5_error_handling.2.2.1 _ "c1" "not-a-date" "2024-01-02" (by decide)
  · exact C5_error_handling.2.2.2.1 _ "c1" "2024-01-01" "not-a-date"
      ⟨1704067200000000, none⟩ (by decide) (by decide)
  · exact C5_error_handling.2.2.2.2.1 "c1" "2024-01-01" "2024-01-02" 1 10
      ⟨1704067200000000, none⟩ ⟨1704153600000000, none⟩ "boom" (by decide) (by decide)
  · exact C5_error_handling.2.2.2.2.2 "c1" "2024-01-01" "2024-01-02"
      ⟨1704067200000000, none⟩ ⟨1704153600000000, none⟩ "boom" (by decide) (by decide)

/-- C4: for every engine response (under the engine contract that at most
`size` hits are returned), the handler's `items` has length at most `size`;
`total` is exactly the engine-reported match count extracted from
`hits.total.value` — independent of how many hits survive mapping — and the
closed conjunct exhibits a run in which `total` exceeds `len(items)`. -/
theorem C4_total_and_size :
    (∀ (r : PyVal) (c sd ed : String) (page size : Int) (resp : TransactionSearchResponse)
       (hits hitsVal tv : PyVal) (hl : List PyVal) (n : Int),
       search_transactions (fun _ => .ok r) c sd ed page size = .ok resp →
       r.get "hits" (.dictV []) = .ok hits →
       hits.get "hits" (.listV []) = .ok hitsVal →
       hitsVal.iter = .ok hl →
       (do let t ← hits.get "total" (.dictV [])
           t.get "value" (.intV 0)) = .ok tv →
       pyToInt tv = .ok n →
       resp.total = n ∧ (hl.length ≤ size.toNat → resp.items.length ≤ size.toNat)) ∧
    (search_transactions (fun _ => .ok (.dictV [("hits", .dictV [
        ("total", .dictV [("value", .intV 5)]), ("hits", .listV [])])]))
        "c1" "2024-01-01" "2024-01-02" 1 10).map
      (fun resp => decide (resp.items.length < resp.total.toNat)) = .ok true := by
  constructor
  · intro r c sd ed page size resp hits hitsVal tv hl n hrun hhits hhv hiter htv hn
    simp only [search_transactions, except_bind_ok, liftE_ok, pure, Except.pure] at hrun
    obtain ⟨start, hstart, end_, hend, r', hr', hits', hhits', tv', htv', hitsVal', hhv',
      hl', hiter', items, hitems, total, htotal, hpure⟩ := hrun
    cases hr'
    rw [hhits] at hhits'
    cases hhits'
    simp only [except_bind_ok] at htv htv'
    obtain ⟨t1, ht1, ht1v⟩ := htv
    obtain ⟨t2, ht2, ht2v⟩ := htv'
    rw [ht1] at ht2
    cases ht2
    rw [ht1v] at ht2v
    cases ht2v
    rw [hhv] at hhv'
    cases hhv'
    rw [hiter] at hiter'
    cases hiter'
    rw [hn] at htotal
    cases htotal
    cases hpure
    refine ⟨rfl, fun hsz => ?_⟩
    exact le_trans (runHits_length hl items hitems) hsz
  · decide

/-- The engine hit used by the C4 witness. -/
def c4hit : PyVal := .dictV [("_id", .strV "d1"), ("_source", .dictV [
  ("id", .strV "t1"), ("type", .strV "pix"), ("client_id", .strV "c1"),
  ("payer_id", .strV "p1"), ("amount", .intV 7),
  ("created_at", .strV "2024-01-01T00:00:00Z")])]

/-- The `hits` object of the C4 witness response. -/
def c4hits : PyVal := .dictV [("total", .dictV [("value", .intV 5)]), ("hits", .listV [c4hit])]

/-- The engine response of the C4 witness. -/
def c4engineResp : PyVal := .dictV [("hits", c4hits)]

/-- The item the handler maps `c4hit` to. -/
def c4item : TransactionSearchItem :=
  ⟨"t1", .finite (Frac.ofInt 0),
   ⟨"t1", "pix", ⟨1704067200000000, some 0⟩, "c1", "p1", .finite (Frac.ofInt 7)⟩⟩

/-- The full handler response of the C4 witness. -/
def c4response : TransactionSearchResponse := ⟨5, 1, 10, [c4item]⟩

/-- Witness for C4: a response reporting 5 matches with a single mapped hit;
the handler returns that hit, `total = 5` (the engine count, not the mapped
count), and `items.length ≤ size`. -/
theorem C4_total_and_size_witness :
    search_transactions (fun _ => .ok c4engineResp) "c1" "2024-01-01" "2024-01-02" 1 10 =
      .ok c4response ∧
    c4response.total = 5 ∧ c4response.items.length ≤ (10 : Int).toNat := by
  have happ := C4_total_and_size.1 c4engineResp "c1" "2024-01-01" "2024-01-02" 1 10 c4response
    c4hits (.listV [c4hit]) (.intV 5) [c4hit] 5 (by decide) rfl rfl rfl rfl rfl
  exact ⟨by decide, happ.1, happ.2 (by decide)⟩

/-- C6 counterexample: an engine response whose per-type sub-buckets carry
the same stringified key twice makes the handler produce a bucket with
`totalsByType = ("a" ↦ 2.0)` but `totalAllTypes = 3.0` — the dict assignment
overwrites the earlier value while the running total keeps both — so
"totalAllTypes equals the sum of totalsByType values for every possible
engine-supplied set of sub-buckets" is false (3 ≠ 2 even as exact values). -/
theorem C6_duplicate_key_counterexample :
    (stats_daily (fun _ => .ok (.dictV [("aggregations", .dictV [("per_day", .dictV [("buckets",
        .listV [.dictV [("key_as_string", .strV "2024-01-01T00:00:00.000Z"),
          ("by_type", .dictV [("buckets", .listV [
            .dictV [("key", .strV "a"),
                    ("total_amount", .dictV [("value", .floatV (.finite ⟨1, 1⟩))])],
            .dictV [("key", .strV "a"),
                    ("total_amount", .dictV [("value", .floatV (.finite ⟨2, 1⟩))])]])])]])])])]))
      "c1" "2024-01-01" "2024-01-02").map
        (fun r => r.buckets.map fun bk => (bk.totalsByType, bk.totalAllTypes))
      = .ok [([("a", .finite ⟨2, 1⟩)], .finite ⟨3, 1⟩)] ∧
    PyFloat.veq (.finite ⟨3, 1⟩)
      (pyFloatSum (([("a", (.finite ⟨2, 1⟩ : PyFloat))]).map Prod.snd)) = false := by
  exact ⟨by decide, by decide⟩

/-- C6 amended: for every bucket the daily aggregation handler produces from
per-type sub-buckets whose stringified keys are pairwise distinct (the
engine's terms aggregation returns distinct keys), `totalAllTypes` equals
the sum of the `totalsByType` values — exactly, in the exact-rational model,
hence within floating-point tolerance in IEEE arithmetic.  With duplicate
keys the later value overwrites the dict entry while `totalAllTypes` still
counts every sub-bucket. -/
theorem C6_amended_total_eq_sum :
    ∀ (b : PyVal) (bkt : DailyTotalsBucket) (tbs : List PyVal) (ks : List String),
      (do let bt ← b.get "by_type" (.dictV [])
          let bl0 ← bt.get "buckets" (.listV [])
          (if bl0.truthy then bl0 else .listV []).iter) = .ok tbs →
      tbKeys tbs = .ok ks → ks.Nodup →
      mapDailyBucket b = .ok bkt →
      bkt.totalAllTypes = pyFloatSum (bkt.totalsByType.map Prod.snd) := by
  intro b bkt tbs ks hext hkeys hnd hrun
  simp only [mapDailyBucket, except_bind_ok] at hrun
  obtain ⟨kAs, hkAs, dOpt, hdOpt, bt, hbt, bl0, hbl0, tbs', htbs', acc, hacc, hpure⟩ := hrun
  simp only [except_bind_ok] at hext
  obtain ⟨bt2, hbt2, bl02, hbl02, hiter2⟩ := hext
  rw [hbt] at hbt2
  cases hbt2
  rw [hbl0] at hbl02
  cases hbl02
  rw [htbs'] at hiter2
  cases hiter2
  cases hpure
  exact mapByType_total tbs ks [] (.finite (Frac.ofInt 0)) acc.1 acc.2 hkeys hnd
    (by simp) rfl hacc

/-- The bucket used by the C6 witness: two sub-buckets with distinct keys. -/
def c6bucket : PyVal := .dictV [("key_as_string", .strV "2024-01-01T00:00:00.000Z"),
  ("by_type", .dictV [("buckets", .listV [
    .dictV [("key", .strV "a"), ("total_amount", .dictV [("value", .floatV (.finite ⟨1, 1⟩))])],
    .dictV [("key", .strV "b"), ("total_amount", .dictV [("value", .floatV (.finite ⟨2, 1⟩))])]])])]

/-- The DailyTotalsBucket the handler maps `c6bucket` to. -/
def c6mapped : DailyTotalsBucket :=
  ⟨⟨1704067200000000, some 0⟩,
   [("a", .finite ⟨1, 1⟩), ("b", .finite ⟨2, 1⟩)],
   .finite ⟨(0 * 1 + 1 * 1) * 1 + 2 * 1, 1 * 1 * 1⟩⟩

/-- Witness for C6 amended: with distinct keys "a" and "b" the produced
bucket's `totalAllTypes` is literally the sum of its `totalsByType`
values. -/
theorem C6_amended_total_eq_sum_witness :
    mapDailyBucket c6bucket = .ok c6mapped ∧
    c6mapped.totalAllTypes = pyFloatSum (c6mapped.totalsByType.map Prod.snd) := by
  refine ⟨by decide, ?_⟩
  exact C6_amended_total_eq_sum c6bucket c6mapped
    [.dictV [("key", .strV "a"), ("total_amount", .dictV [("value", .floatV (.finite ⟨1, 1⟩))])],
     .dictV [("key", .strV "b"), ("total_amount", .dictV [("value", .floatV (.finite ⟨2, 1⟩))])]]
    ["a", "b"] rfl (by decide) (by decide) (by decide)
